import Mathlib

/-!
Verification of the UID-addressed snapshot/interaction protocol of the
camoufox-mcp browser-automation server.

The embedding follows `src/tools/interaction.ts` (the UID validator and the
interaction operations click / hover / fill / fillForm / pressKey / drag).
The versioned snapshot module (`src/tools/snapshot.ts`, exporting
`getCurrentSnapshotVersion` / `incrementSnapshotVersion` and the versioned
`takeSnapshot`) is imported by `interaction.ts` but its current revision is
not among the sources; only an older pre-versioning revision of the snapshot
tool and a test harness simulating the version logic are present.  Where a
claim depends on that missing module, definitions are modelled from the spec
and are marked as such.

Machine integers: the snapshot version is a JS number used only as a
counter incremented from 0, modelled as `Nat`.  The version embedded in a
UID is produced by JS `parseInt(s, 10)`, which can be negative, modelled as
`Option Int` (`none` for `NaN`).
-/

namespace Camoufox

/-- The value of JS `parseInt(s, 10)` restricted to a digit list:
the accumulated decimal value. -/
def digitsToNat (l : List Char) : Nat :=
  l.foldl (fun a c => a * 10 + (c.toNat - 48)) 0

/-- JS `parseInt(s, 10)`: skip leading whitespace, read an optional sign,
then the maximal prefix of decimal digits; `NaN` (here `none`) when that
prefix is empty.  Trailing non-digit characters are ignored. -/
def jsParseInt10 (s : String) : Option Int :=
  let cs := s.data.dropWhile Char.isWhitespace
  let signAndRest : Int × List Char :=
    match cs with
    | '-' :: r => (-1, r)
    | '+' :: r => (1, r)
    | r => (1, r)
  let ds := signAndRest.2.takeWhile Char.isDigit
  if ds.isEmpty then none
  else some (signAndRest.1 * (digitsToNat ds : Int))

/-- JS `String.prototype.split` with a one-character separator, on the
character list: splitting the empty list yields one empty piece, and each
occurrence of the separator starts a new piece. -/
def splitChar (sep : Char) : List Char → List (List Char)
  | [] => [[]]
  | c :: r =>
    let rest := splitChar sep r
    if c = sep then [] :: rest
    else
      match rest with
      | h :: t => (c :: h) :: t
      | [] => [[c]]

/-- JS `s.split(sep)` for a one-character separator, as a list of strings.
Agrees with JS: `"".split("_") = [""]`, `"_".split("_") = ["", ""]`,
`"1_2_3".split("_") = ["1", "2", "3"]`. -/
def jsSplit (s : String) (sep : Char) : List String :=
  (splitChar sep s.data).map String.mk

/-- The failure kinds of `validateUid` in `src/tools/interaction.ts`
(the code throws `Error(message)`; the constructors record which throw
site fired and the data interpolated into its message). -/
inductive UidError where
  /-- `parts.length !== 2` -/
  | invalidFormat (uid : String)
  /-- `isNaN(uidVersion)` -/
  | versionNotANumber (uid : String)
  /-- `currentVersion === 0` -/
  | noSnapshotYet
  /-- `uidVersion !== currentVersion` -/
  | staleUid (uid : String) (uidVersion : Int) (currentVersion : Nat)
  deriving Repr, DecidableEq

/-- The message string each throw site of `validateUid` interpolates. -/
def uidErrorMessage : UidError → String
  | .invalidFormat uid =>
      "Invalid UID format: " ++ uid ++ ". Expected format: version_index (e.g., \"1_0\")."
  | .versionNotANumber uid =>
      "Invalid UID format: " ++ uid ++ ". Version must be a number."
  | .noSnapshotYet =>
      "No snapshot taken yet. Call takeSnapshot first."
  | .staleUid uid v cv =>
      "This UID (" ++ uid ++ ") is from a stale snapshot (version " ++ toString v ++
      "). Current snapshot version is " ++ toString cv ++ ". Take a new snapshot first."

/-- `validateUid(uid)` from `src/tools/interaction.ts` lines 45-68, with the
process-wide snapshot version (`getCurrentSnapshotVersion()`) passed
explicitly.  The order of the checks is the order of the source: split on
the underscore, parse the first part, `isNaN` check, zero-version check,
mismatch check. -/
def validateUid (uid : String) (currentVersion : Nat) : Except UidError Unit :=
  match jsSplit uid '_' with
  | [p0, _p1] =>
    match jsParseInt10 p0 with
    | none => .error (.versionNotANumber uid)
    | some uidVersion =>
      if currentVersion = 0 then
        .error .noSnapshotYet
      else if uidVersion ≠ (currentVersion : Int) then
        .error (.staleUid uid uidVersion currentVersion)
      else
        .ok ()
  | _ => .error (.invalidFormat uid)

/-- Stated from the spec's words, for comparison with `validateUid`: the
wire-format regex `^[0-9]+_[0-9]+$` — exactly two parts joined by a single
underscore, both parts nonempty strings of decimal digits. -/
def matchesUidRegex (s : String) : Bool :=
  match jsSplit s '_' with
  | [a, b] => !a.data.isEmpty && !b.data.isEmpty &&
              a.data.all Char.isDigit && b.data.all Char.isDigit
  | _ => false

/-! ## Page and browser model for the interaction operations

The operations in `interaction.ts` touch the page through a small set of
calls (`page.$`, `element.click`, `element.fill`, ...).  The page is
modelled by the map from stamped `data-mcp-uid` attribute values to
elements that `page.$('[data-mcp-uid="..."]')` queries, and every page
access an operation performs is recorded in an effect trace, so that
"reports the error without touching the page" is a statement about the
trace. -/

/-- A bounding box as returned by `element.boundingBox()` (JS numbers,
modelled as rationals; the only arithmetic performed on them is halving). -/
structure Box where
  x : Rat
  y : Rat
  width : Rat
  height : Rat
  deriving Repr, DecidableEq

/-- The element data the interaction operations consult: the DOM `tagName`
(upper-case, as in the DOM) and the result of `boundingBox()` (`none` for
`null`). -/
structure ElemModel where
  tagName : String
  box : Option Box
  deriving Repr, DecidableEq

/-- A page: the partial map from `data-mcp-uid` attribute value to element
behind `page.$('[data-mcp-uid="..."]')`, and the value of `page.url()`. -/
structure PageModel where
  elems : String → Option ElemModel
  url : String

/-- The page registry of `browserManager`: pages by id plus the active page. -/
structure BrowserState where
  pageById : String → Option PageModel
  activePage : Option PageModel

/-- One page access performed by an interaction operation. -/
inductive Effect where
  /-- `page.$('[data-mcp-uid="uid"]')` -/
  | query (uid : String)
  /-- `element.evaluate(el => el.tagName.toLowerCase())` -/
  | evalTagName (uid : String)
  /-- `element.boundingBox()` -/
  | boundingBox (uid : String)
  /-- `element.click({button, clickCount, modifiers})` -/
  | clickAct (uid : String) (button : String) (clickCount : Nat)
             (modifiers : Option (List String))
  /-- `page.waitForTimeout(ms)` -/
  | waitTimeout (ms : Nat)
  /-- `element.hover()` -/
  | hoverAct (uid : String)
  /-- `element.selectOption(value)` -/
  | selectOptionAct (uid : String) (value : String)
  /-- `element.fill(value)` -/
  | fillAct (uid : String) (value : String)
  /-- `page.keyboard.press(key)` -/
  | pressKeyAct (key : String)
  /-- `page.mouse.move(x, y, {steps})` (`steps = 1` when not given) -/
  | mouseMove (x : Rat) (y : Rat) (steps : Nat)
  /-- `page.mouse.down()` -/
  | mouseDown
  /-- `page.mouse.up()` -/
  | mouseUp
  deriving Repr, DecidableEq

/-- The failures an interaction operation can throw besides the
validator's. -/
inductive IError where
  | uidError (e : UidError)
  /-- `page.$` returned null for a validated UID -/
  | elementNotFound (uid : String)
  /-- `browserManager.getPage(pageId)` returned undefined -/
  | pageNotFound (pageId : String)
  /-- no pageId given and `browserManager.getActivePage()` returned undefined -/
  | noActivePage
  /-- `!fromBox || !toBox` in `drag` -/
  | dragNoBox
  deriving Repr, DecidableEq

/-- The message of each throw site of `interaction.ts`. -/
def iErrorMessage : IError → String
  | .uidError e => uidErrorMessage e
  | .elementNotFound uid =>
      "Element with UID " ++ uid ++
      " not found. The element may have been removed from the DOM. Take a new snapshot."
  | .pageNotFound pid => "Page " ++ pid ++ " not found"
  | .noActivePage => "No active page"
  | .dragNoBox => "Could not get element positions for drag"

/-- JS `String(error)` on a thrown `Error`, as used by `fillForm`. -/
def jsErrorString (e : IError) : String :=
  "Error: " ++ iErrorMessage e

/-- JS `s.toLowerCase()` (ASCII, which covers DOM tag names). -/
def jsToLowerCase (s : String) : String :=
  String.mk (s.data.map Char.toLower)

/-- `getPage(pageId)` from `interaction.ts` lines 83-92. -/
def getPage (bs : BrowserState) (pageId : Option String) : Except IError PageModel :=
  match pageId with
  | some pid =>
    match bs.pageById pid with
    | some p => .ok p
    | none => .error (.pageNotFound pid)
  | none =>
    match bs.activePage with
    | some p => .ok p
    | none => .error .noActivePage

/-- `getElementByUid(page, uid)` from `interaction.ts` lines 71-80:
validate first (synchronously, no page access), then query the live
document by the stamped attribute. -/
def getElementByUid (page : PageModel) (uid : String) (cv : Nat) :
    Except IError ElemModel × List Effect :=
  match validateUid uid cv with
  | .error e => (.error (.uidError e), [])
  | .ok _ =>
    match page.elems uid with
    | none => (.error (.elementNotFound uid), [.query uid])
    | some el => (.ok el, [.query uid])

/-! ## Interaction operation inputs and results -/

structure ClickInput where
  pageId : Option String
  uid : String
  button : String
  clickCount : Nat
  modifiers : Option (List String)
  deriving Repr, DecidableEq

structure ClickResult where
  success : Bool
  uid : String
  url : String
  deriving Repr, DecidableEq

structure HoverInput where
  pageId : Option String
  uid : String
  deriving Repr, DecidableEq

structure HoverResult where
  success : Bool
  uid : String
  deriving Repr, DecidableEq

structure FillInput where
  pageId : Option String
  uid : String
  value : String
  deriving Repr, DecidableEq

structure FillResult where
  success : Bool
  uid : String
  value : String
  deriving Repr, DecidableEq

structure FillField where
  uid : String
  value : String
  deriving Repr, DecidableEq

structure FillFormInput where
  pageId : Option String
  fields : List FillField
  deriving Repr, DecidableEq

/-- One entry pushed onto `results` by `fillForm`. -/
structure FieldResult where
  uid : String
  success : Bool
  error : Option String
  deriving Repr, DecidableEq

structure FillFormResult where
  success : Bool
  results : List FieldResult
  deriving Repr, DecidableEq

structure PressKeyInput where
  pageId : Option String
  key : String
  deriving Repr, DecidableEq

structure PressKeyResult where
  success : Bool
  key : String
  deriving Repr, DecidableEq

structure DragInput where
  pageId : Option String
  fromUid : String
  toUid : String
  deriving Repr, DecidableEq

structure DragResult where
  success : Bool
  fromUid : String
  toUid : String
  deriving Repr, DecidableEq

/-! ## The interaction operations (`interaction.ts` lines 95-210)

Each operation takes the browser state and the current snapshot version
and returns its result (or the error it throws) together with the trace
of page accesses it performed, in order. -/

/-- `click(input)`: resolve page, resolve element (validating the UID),
click, wait 100ms, return `{success: true, uid, url}`. -/
def click (bs : BrowserState) (input : ClickInput) (cv : Nat) :
    Except IError ClickResult × List Effect :=
  match getPage bs input.pageId with
  | .error e => (.error e, [])
  | .ok page =>
    match getElementByUid page input.uid cv with
    | (.error e, effs) => (.error e, effs)
    | (.ok _el, effs) =>
      (.ok { success := true, uid := input.uid, url := page.url },
       effs ++ [.clickAct input.uid input.button input.clickCount input.modifiers,
                .waitTimeout 100])

/-- `hover(input)`. -/
def hover (bs : BrowserState) (input : HoverInput) (cv : Nat) :
    Except IError HoverResult × List Effect :=
  match getPage bs input.pageId with
  | .error e => (.error e, [])
  | .ok page =>
    match getElementByUid page input.uid cv with
    | (.error e, effs) => (.error e, effs)
    | (.ok _el, effs) =>
      (.ok { success := true, uid := input.uid },
       effs ++ [.hoverAct input.uid])

/-- `fill(input)`: after resolving the element, read its tag name;
`select` elements get `selectOption`, all others `fill`. -/
def fill (bs : BrowserState) (input : FillInput) (cv : Nat) :
    Except IError FillResult × List Effect :=
  match getPage bs input.pageId with
  | .error e => (.error e, [])
  | .ok page =>
    match getElementByUid page input.uid cv with
    | (.error e, effs) => (.error e, effs)
    | (.ok el, effs) =>
      let actEff : Effect :=
        if jsToLowerCase el.tagName = "select" then
          .selectOptionAct input.uid input.value
        else
          .fillAct input.uid input.value
      (.ok { success := true, uid := input.uid, value := input.value },
       effs ++ [.evalTagName input.uid, actEff])

/-- The body of `fillForm`'s per-field `try`/`catch`: any error thrown by
`getElementByUid` (or the actions) is caught and recorded as a failed
entry `{uid, success: false, error: String(error)}`; element actions do
not change the stamped attribute or the tag name, so the page is constant
through the pass. -/
def fillFormStep (page : PageModel) (cv : Nat) (field : FillField) :
    FieldResult × List Effect :=
  match getElementByUid page field.uid cv with
  | (.error e, effs) =>
    ({ uid := field.uid, success := false, error := some (jsErrorString e) }, effs)
  | (.ok el, effs) =>
    let actEff : Effect :=
      if jsToLowerCase el.tagName = "select" then
        .selectOptionAct field.uid field.value
      else
        .fillAct field.uid field.value
    ({ uid := field.uid, success := true, error := none },
     effs ++ [.evalTagName field.uid, actEff])

/-- `fillForm(input)`: one pass over `input.fields` in order, one result
entry per field, overall `success := results.every(r => r.success)`. -/
def fillForm (bs : BrowserState) (input : FillFormInput) (cv : Nat) :
    Except IError FillFormResult × List Effect :=
  match getPage bs input.pageId with
  | .error e => (.error e, [])
  | .ok page =>
    let pairs := input.fields.map (fillFormStep page cv)
    let results := pairs.map Prod.fst
    (.ok { success := results.all (fun r => r.success), results := results },
     (pairs.map Prod.snd).flatten)

/-- `pressKey(input)`: global, no UID. -/
def pressKey (bs : BrowserState) (input : PressKeyInput) (_cv : Nat) :
    Except IError PressKeyResult × List Effect :=
  match getPage bs input.pageId with
  | .error e => (.error e, [])
  | .ok _page =>
    (.ok { success := true, key := input.key }, [.pressKeyAct input.key])

/-- `drag(input)`: resolve `fromUid` (validate + query), then `toUid`
(validate + query), read both bounding boxes, fail if either is null,
else move-press-move-release through the box centers. -/
def drag (bs : BrowserState) (input : DragInput) (cv : Nat) :
    Except IError DragResult × List Effect :=
  match getPage bs input.pageId with
  | .error e => (.error e, [])
  | .ok page =>
    match getElementByUid page input.fromUid cv with
    | (.error e, effs1) => (.error e, effs1)
    | (.ok fromEl, effs1) =>
      match getElementByUid page input.toUid cv with
      | (.error e, effs2) => (.error e, effs1 ++ effs2)
      | (.ok toEl, effs2) =>
        let effs := effs1 ++ effs2 ++
          [.boundingBox input.fromUid, .boundingBox input.toUid]
        match fromEl.box, toEl.box with
        | some fromBox, some toBox =>
          (.ok { success := true, fromUid := input.fromUid, toUid := input.toUid },
           effs ++
             [.mouseMove (fromBox.x + fromBox.width / 2) (fromBox.y + fromBox.height / 2) 1,
              .mouseDown,
              .mouseMove (toBox.x + toBox.width / 2) (toBox.y + toBox.height / 2) 10,
              .mouseUp])
        | _, _ => (.error .dragNoBox, effs)

/-! ## The versioned snapshot module

`interaction.ts` imports `getCurrentSnapshotVersion` from
`./snapshot.js`, and the server registers `takeSnapshot` from the same
module, but the current revision of `src/tools/snapshot.ts` is not among
the sources; only an older, pre-versioning revision of the snapshot tool
(legacy `ref_N` identifiers, no counter) and a test harness that
simulates the version logic are present.  The definitions below are
therefore modelled from the spec. -/

/-- Modelled from the spec: `advance()` of the missing
`src/tools/snapshot.ts` version counter ("atomically increments the
counter and returns the new value"; the test harness simulates it as
`return ++snapshotVersion`). -/
def incrementSnapshotVersion (snapshotVersion : Nat) : Nat :=
  snapshotVersion + 1

/-- An element of the document as seen by the tagging pass, abstracted to
the two classifications the pass makes (interactive per the tag / role /
tabindex / onclick / cursor / contenteditable test, and visible per the
nonzero-rect and computed-style test) plus its tag name. -/
structure RawElem where
  interactive : Bool
  visible : Bool
  tag : String
  deriving Repr, DecidableEq

/-- One Tagged Element Record: the UID returned in the record and the
value written onto the element's `data-mcp-uid` attribute. -/
structure TaggedElem where
  uid : String
  dataMcpUid : String
  tag : String
  deriving Repr, DecidableEq

/-- Modelled from the spec: the tagging pass of the missing
`src/tools/snapshot.ts` (the DOM script, given this pass's version):
enumerate the document in order, keep the interactive and visible
elements, and stamp the i-th survivor (i from 0) with
`version + "_" + i`, both in the attribute and in the record. -/
def tagPass (version : Nat) (doc : List RawElem) : List TaggedElem :=
  (doc.filter (fun e => e.interactive && e.visible)).enum.map
    (fun p => { uid := toString version ++ "_" ++ toString p.1,
                dataMcpUid := toString version ++ "_" ++ toString p.1,
                tag := p.2.tag })

/-- The part of a snapshot's return value the claims are about. -/
structure SnapshotResult where
  version : Nat
  elements : List TaggedElem
  deriving Repr, DecidableEq

/-- Modelled from the spec: `takeSnapshot` of the missing
`src/tools/snapshot.ts` — advance the process-wide counter exactly once,
before tagging begins, then tag with the new version.  Returns the
result and the new counter state. -/
def takeSnapshot (state : Nat) (doc : List RawElem) : SnapshotResult × Nat :=
  let version := incrementSnapshotVersion state
  ({ version := version, elements := tagPass version doc }, version)

/-- A sequence of snapshot calls threading the process-wide counter. -/
def runSnapshots (state : Nat) : List (List RawElem) → List SnapshotResult
  | [] => []
  | d :: ds =>
    let r := takeSnapshot state d
    r.1 :: runSnapshots r.2 ds

/-! ## Concrete states used to instantiate the theorems -/

/-- A page holding a single element stamped `data-mcp-uid="1_0"`. -/
def pageEx : PageModel :=
  { elems := fun u =>
      if u = "1_0" then some { tagName := "DIV", box := some ⟨0, 0, 10, 10⟩ } else none,
    url := "https://example.test/" }

/-- A browser whose active page is `pageEx` and with no pages by id. -/
def bsEx : BrowserState :=
  { pageById := fun _ => none, activePage := some pageEx }

/-- A page with a form: a text input stamped `1_0` and a select stamped
`1_1`; nothing else. -/
def pageForm : PageModel :=
  { elems := fun u =>
      if u = "1_0" then some { tagName := "INPUT", box := some ⟨0, 0, 10, 10⟩ }
      else if u = "1_1" then some { tagName := "SELECT", box := some ⟨0, 20, 10, 10⟩ }
      else none,
    url := "https://form.test/" }

/-- A browser whose active page is `pageForm`. -/
def bsForm : BrowserState :=
  { pageById := fun _ => none, activePage := some pageForm }

/-- Three form fields for `pageForm` at version 1: the middle one names a
UID that validates but is stamped on no element. -/
def fieldsEx3 : List FillField :=
  [{ uid := "1_0", value := "alice" },
   { uid := "1_2", value := "bob" },
   { uid := "1_1", value := "carol" }]

/-- A page with no stamped elements at all. -/
def pageEmpty : PageModel :=
  { elems := fun _ => none, url := "https://empty.test/" }

/-- A browser whose active page is `pageEmpty`. -/
def bsEmpty : BrowserState :=
  { pageById := fun _ => none, activePage := some pageEmpty }

end Camoufox

namespace Camoufox

/-! ## Theorems -/

/-- Claim C1, counterexample: with the snapshot version at 1, the string
`"1_x"` does not match `^[0-9]+_[0-9]+$` (its index part is not numeric),
yet `validateUid` accepts it — the code never checks the index part, so
validation success is not equivalent to the spec's wire-format regex plus
a version match. -/
theorem validateUid_regex_counterexample :
    validateUid "1_x" 1 = .ok () ∧ matchesUidRegex "1_x" = false :=
  ⟨rfl, rfl⟩

/-- Claim C1 (amended): `validateUid uid` succeeds iff the version counter
is positive, `uid` splits on the underscore into exactly two parts, and
the first part parses under JS `parseInt(-, 10)` semantics (optional
leading whitespace and sign, trailing garbage ignored) to exactly the
current version.  The index part is never inspected. -/
theorem validateUid_ok_iff (uid : String) (cv : Nat) :
    validateUid uid cv = .ok () ↔
      0 < cv ∧ ∃ p0 p1, jsSplit uid '_' = [p0, p1] ∧ jsParseInt10 p0 = some (cv : Int) := by
  unfold validateUid
  rcases h : jsSplit uid '_' with _ | ⟨p0, _ | ⟨p1, _ | ⟨p2, rest⟩⟩⟩
  · simp
  · simp
  · rcases hp : jsParseInt10 p0 with _ | v
    · simp [hp]
    · by_cases hcv : cv = 0
      · subst hcv
        simp [hp]
      · by_cases hv : v = (cv : Int)
        · subst hv
          simp [hp, hcv, Nat.pos_of_ne_zero hcv]
        · simp [hp, hcv, hv]
  · simp

/-- Claim C4: for a well-formed UID (two underscore-separated parts whose
first part parses to `v`), a zero version counter yields `NoSnapshotYet`
whatever `v` is; a positive counter different from `v` — smaller or
greater alike — yields `StaleUid` whose message carries both `v` and the
current version; and a positive counter equal to `v` validates. -/
theorem validateUid_version_check (uid p0 p1 : String) (v : Int) (cv : Nat)
    (hsplit : jsSplit uid '_' = [p0, p1]) (hparse : jsParseInt10 p0 = some v) :
    (cv = 0 → validateUid uid cv = .error .noSnapshotYet) ∧
    (0 < cv → v ≠ (cv : Int) →
      validateUid uid cv = .error (.staleUid uid v cv) ∧
      uidErrorMessage (.staleUid uid v cv) =
        "This UID (" ++ uid ++ ") is from a stale snapshot (version " ++ toString v ++
        "). Current snapshot version is " ++ toString cv ++ ". Take a new snapshot first.") ∧
    (0 < cv → v = (cv : Int) → validateUid uid cv = .ok ()) := by
  refine ⟨?_, ?_, ?_⟩
  · intro h0
    subst h0
    simp [validateUid, hsplit, hparse]
  · intro hpos hne
    refine ⟨?_, rfl⟩
    simp [validateUid, hsplit, hparse, Nat.pos_iff_ne_zero.mp hpos, hne]
  · intro hpos heq
    subst heq
    simp [validateUid, hsplit, hparse, Nat.pos_iff_ne_zero.mp hpos]

/-- Witness for C4: with `"2_0"` the three outcomes at counter values 0,
1 and 2 are `NoSnapshotYet`, `StaleUid` (reporting versions 2 and 1) and
success. -/
theorem validateUid_version_check_witness :
    validateUid "2_0" 0 = .error .noSnapshotYet ∧
    validateUid "2_0" 1 = .error (.staleUid "2_0" 2 1) ∧
    validateUid "2_0" 2 = .ok () :=
  ⟨(validateUid_version_check "2_0" "2" "0" 2 0 rfl rfl).1 rfl,
   ((validateUid_version_check "2_0" "2" "0" 2 1 rfl rfl).2.1 (by decide) (by decide)).1,
   (validateUid_version_check "2_0" "2" "0" 2 2 rfl rfl).2.2 (by decide) (by decide)⟩

/-- Claim C6: whatever the version counter holds, an input that does not
split on the underscore into exactly two parts is rejected at the first
throw site with the "Invalid UID format" message, and a two-part input
whose first part has no `parseInt` value is rejected at the second throw
site with the "Version must be a number" message — both before the
zero-version and mismatch checks are reached. -/
theorem validateUid_malformed_classification (uid : String) (cv : Nat) :
    ((jsSplit uid '_').length ≠ 2 →
      validateUid uid cv = .error (.invalidFormat uid) ∧
      uidErrorMessage (.invalidFormat uid) =
        "Invalid UID format: " ++ uid ++ ". Expected format: version_index (e.g., \"1_0\").") ∧
    (∀ p0 p1, jsSplit uid '_' = [p0, p1] → jsParseInt10 p0 = none →
      validateUid uid cv = .error (.versionNotANumber uid) ∧
      uidErrorMessage (.versionNotANumber uid) =
        "Invalid UID format: " ++ uid ++ ". Version must be a number.") := by
  constructor
  · intro hlen
    refine ⟨?_, rfl⟩
    unfold validateUid
    rcases h : jsSplit uid '_' with _ | ⟨p0, _ | ⟨p1, _ | ⟨p2, rest⟩⟩⟩
    · rfl
    · rfl
    · rw [h] at hlen
      exact absurd rfl hlen
    · rfl
  · intro p0 p1 hsplit hparse
    refine ⟨?_, rfl⟩
    simp [validateUid, hsplit, hparse]

/-- Witness for C6: `"ref0"` and `"1_2_3"` are rejected as bad shapes and
legacy `"ref_0"` as a non-numeric version, here with the counter at 0. -/
theorem validateUid_malformed_classification_witness :
    validateUid "ref0" 0 = .error (.invalidFormat "ref0") ∧
    validateUid "1_2_3" 0 = .error (.invalidFormat "1_2_3") ∧
    validateUid "ref_0" 0 = .error (.versionNotANumber "ref_0") :=
  ⟨((validateUid_malformed_classification "ref0" 0).1 (by decide)).1,
   ((validateUid_malformed_classification "1_2_3" 0).1 (by decide)).1,
   ((validateUid_malformed_classification "ref_0" 0).2 "ref" "0" rfl rfl).1⟩

/-- Claim C5, counterexample: with the version at 1, a `drag` whose
`fromUid` is valid and present but whose `toUid` is stale reports the
stale-UID error, yet its trace contains the DOM query for `fromUid` —
the page was touched although validation of one of the UID arguments
failed, because `drag` resolves `fromUid` (validate + query) before it
ever validates `toUid`. -/
theorem drag_queries_page_before_second_validation :
    (drag bsEx { pageId := none, fromUid := "1_0", toUid := "2_0" } 1).1 =
      .error (.uidError (.staleUid "2_0" 2 1)) ∧
    (drag bsEx { pageId := none, fromUid := "1_0", toUid := "2_0" } 1).2 =
      [.query "1_0"] :=
  ⟨rfl, rfl⟩

/-- Claim C5 (amended): every interaction operation validates each UID
argument before that UID's own DOM lookup, and a validation failure stops
the operation with the typed error and with no action performed: click,
hover and fill then have an empty trace (no page access at all), as does
drag when `fromUid` fails validation; when drag's `fromUid` resolves but
`toUid` fails validation, the trace holds exactly the `fromUid` query —
no pointer action; and a `fillForm` field whose UID fails validation
contributes a failed entry and no page access for that field. -/
theorem interaction_validates_before_lookup (bs : BrowserState) (page : PageModel) (cv : Nat) :
    (∀ (input : ClickInput) (e : UidError), getPage bs input.pageId = .ok page →
      validateUid input.uid cv = .error e →
      click bs input cv = (.error (.uidError e), [])) ∧
    (∀ (input : HoverInput) (e : UidError), getPage bs input.pageId = .ok page →
      validateUid input.uid cv = .error e →
      hover bs input cv = (.error (.uidError e), [])) ∧
    (∀ (input : FillInput) (e : UidError), getPage bs input.pageId = .ok page →
      validateUid input.uid cv = .error e →
      fill bs input cv = (.error (.uidError e), [])) ∧
    (∀ (input : DragInput) (e : UidError), getPage bs input.pageId = .ok page →
      validateUid input.fromUid cv = .error e →
      drag bs input cv = (.error (.uidError e), [])) ∧
    (∀ (input : DragInput) (e : UidError) (el : ElemModel), getPage bs input.pageId = .ok page →
      validateUid input.fromUid cv = .ok () → page.elems input.fromUid = some el →
      validateUid input.toUid cv = .error e →
      drag bs input cv = (.error (.uidError e), [.query input.fromUid])) ∧
    (∀ (field : FillField) (e : UidError), validateUid field.uid cv = .error e →
      fillFormStep page cv field =
        ({ uid := field.uid, success := false,
           error := some (jsErrorString (.uidError e)) }, [])) := by
  refine ⟨?_, ?_, ?_, ?_, ?_, ?_⟩
  · intro input e hpage hval
    simp [click, hpage, getElementByUid, hval]
  · intro input e hpage hval
    simp [hover, hpage, getElementByUid, hval]
  · intro input e hpage hval
    simp [fill, hpage, getElementByUid, hval]
  · intro input e hpage hval
    simp [drag, hpage, getElementByUid, hval]
  · intro input e el hpage hvalFrom hel hvalTo
    simp [drag, hpage, getElementByUid, hvalFrom, hel, hvalTo]
  · intro field e hval
    simp [fillFormStep, getElementByUid, hval]

/-- Witness for C5 (amended): at version 1 on a page holding `1_0`, a
click on stale `2_0` errors with an empty trace, and a drag from present
`1_0` to stale `9_9` errors having queried only `1_0`. -/
theorem interaction_validates_before_lookup_witness :
    click bsEx { pageId := none, uid := "2_0", button := "left",
                 clickCount := 1, modifiers := none } 1 =
      (.error (.uidError (.staleUid "2_0" 2 1)), []) ∧
    drag bsEx { pageId := none, fromUid := "1_0", toUid := "9_9" } 1 =
      (.error (.uidError (.staleUid "9_9" 9 1)), [.query "1_0"]) :=
  ⟨(interaction_validates_before_lookup bsEx pageEx 1).1
      { pageId := none, uid := "2_0", button := "left", clickCount := 1, modifiers := none }
      (.staleUid "2_0" 2 1) rfl rfl,
   (interaction_validates_before_lookup bsEx pageEx 1).2.2.2.2.1
      { pageId := none, fromUid := "1_0", toUid := "9_9" }
      (.staleUid "9_9" 9 1) { tagName := "DIV", box := some ⟨0, 0, 10, 10⟩ } rfl rfl rfl rfl⟩

/-- Claim C8: a UID that validates (fresh version) but matches no stamped
element makes the lookup fail with `ElementNotFound` — an error distinct
from every `StaleUid` error, whose message tells the caller to take a new
snapshot — and the operations propagate it after only the attribute
query, performing no action. -/
theorem elementNotFound_distinct_from_stale (bs : BrowserState) (page : PageModel)
    (uid : String) (cv : Nat)
    (hval : validateUid uid cv = .ok ()) (hmiss : page.elems uid = none) :
    getElementByUid page uid cv = (.error (.elementNotFound uid), [.query uid]) ∧
    iErrorMessage (.elementNotFound uid) =
      "Element with UID " ++ uid ++
      " not found. The element may have been removed from the DOM. Take a new snapshot." ∧
    (∀ (u : String) (v : Int) (c : Nat),
      (IError.elementNotFound uid) ≠ .uidError (.staleUid u v c)) ∧
    (∀ input : ClickInput, input.uid = uid → getPage bs input.pageId = .ok page →
      click bs input cv = (.error (.elementNotFound uid), [.query uid])) ∧
    (∀ input : HoverInput, input.uid = uid → getPage bs input.pageId = .ok page →
      hover bs input cv = (.error (.elementNotFound uid), [.query uid])) ∧
    (∀ input : FillInput, input.uid = uid → getPage bs input.pageId = .ok page →
      fill bs input cv = (.error (.elementNotFound uid), [.query uid])) := by
  refine ⟨?_, rfl, ?_, ?_, ?_, ?_⟩
  · simp [getElementByUid, hval, hmiss]
  · intro u v c
    simp
  · intro input huid hpage
    subst huid
    simp [click, hpage, getElementByUid, hval, hmiss]
  · intro input huid hpage
    subst huid
    simp [hover, hpage, getElementByUid, hval, hmiss]
  · intro input huid hpage
    subst huid
    simp [fill, hpage, getElementByUid, hval, hmiss]

/-- Witness for C8: on a page with no stamped elements, at version 1 the
fresh UID `1_0` validates but clicking it fails with `ElementNotFound`
after the lone query. -/
theorem elementNotFound_distinct_from_stale_witness :
    click bsEmpty { pageId := none, uid := "1_0", button := "left",
                    clickCount := 1, modifiers := none } 1 =
      (.error (.elementNotFound "1_0"), [.query "1_0"]) :=
  (elementNotFound_distinct_from_stale bsEmpty pageEmpty "1_0" 1 rfl rfl).2.2.2.1
    { pageId := none, uid := "1_0", button := "left", clickCount := 1, modifiers := none }
    rfl rfl

/-- Claim C9: whenever click, hover, fill, pressKey or drag returns a
result record instead of throwing, that record has `success = true` and
echoes its uid / key / value arguments — none of these operations ever
returns `success = false` — while `fillForm` can return a record with
`success = false` (shown at a page with no stamped elements). -/
theorem single_target_success_always_true (bs : BrowserState) (cv : Nat) :
    (∀ (input : ClickInput) (r : ClickResult) (effs : List Effect),
      click bs input cv = (.ok r, effs) → r.success = true ∧ r.uid = input.uid) ∧
    (∀ (input : HoverInput) (r : HoverResult) (effs : List Effect),
      hover bs input cv = (.ok r, effs) → r.success = true ∧ r.uid = input.uid) ∧
    (∀ (input : FillInput) (r : FillResult) (effs : List Effect),
      fill bs input cv = (.ok r, effs) →
        r.success = true ∧ r.uid = input.uid ∧ r.value = input.value) ∧
    (∀ (input : PressKeyInput) (r : PressKeyResult) (effs : List Effect),
      pressKey bs input cv = (.ok r, effs) → r.success = true ∧ r.key = input.key) ∧
    (∀ (input : DragInput) (r : DragResult) (effs : List Effect),
      drag bs input cv = (.ok r, effs) →
        r.success = true ∧ r.fromUid = input.fromUid ∧ r.toUid = input.toUid) ∧
    ((fillForm bsEmpty { pageId := none, fields := [{ uid := "1_0", value := "x" }] } 1).1 =
      .ok { success := false,
            results := [{ uid := "1_0", success := false,
                          error := some (jsErrorString (.elementNotFound "1_0")) }] }) := by
  refine ⟨?_, ?_, ?_, ?_, ?_, rfl⟩
  · intro input r effs h
    unfold click at h
    split at h
    · simp at h
    · split at h
      · simp at h
      · simp only [Prod.mk.injEq, Except.ok.injEq] at h
        obtain ⟨h1, -⟩ := h
        subst h1
        exact ⟨rfl, rfl⟩
  · intro input r effs h
    unfold hover at h
    split at h
    · simp at h
    · split at h
      · simp at h
      · simp only [Prod.mk.injEq, Except.ok.injEq] at h
        obtain ⟨h1, -⟩ := h
        subst h1
        exact ⟨rfl, rfl⟩
  · intro input r effs h
    unfold fill at h
    split at h
    · simp at h
    · split at h
      · simp at h
      · simp only [Prod.mk.injEq, Except.ok.injEq] at h
        obtain ⟨h1, -⟩ := h
        subst h1
        exact ⟨rfl, rfl, rfl⟩
  · intro input r effs h
    unfold pressKey at h
    split at h
    · simp at h
    · simp only [Prod.mk.injEq, Except.ok.injEq] at h
      obtain ⟨h1, -⟩ := h
      subst h1
      exact ⟨rfl, rfl⟩
  · intro input r effs h
    unfold drag at h
    split at h
    · simp at h
    · split at h
      · simp at h
      · split at h
        · simp at h
        · split at h
          · simp only [Prod.mk.injEq, Except.ok.injEq] at h
            obtain ⟨h1, -⟩ := h
            subst h1
            exact ⟨rfl, rfl, rfl⟩
          · simp at h

/-- Witness for C9: a concrete successful click on `1_0` at version 1
returns the `success = true` record echoing the uid. -/
theorem single_target_success_always_true_witness :
    ({ success := true, uid := "1_0", url := "https://example.test/" } : ClickResult).success
      = true ∧
    ({ success := true, uid := "1_0", url := "https://example.test/" } : ClickResult).uid
      = "1_0" :=
  (single_target_success_always_true bsEx 1).1
    { pageId := none, uid := "1_0", button := "left", clickCount := 1, modifiers := none }
    { success := true, uid := "1_0", url := "https://example.test/" }
    [.query "1_0", .clickAct "1_0" "left" 1 none, .waitTimeout 100]
    rfl

/-- Claim C7: once the page resolves, `fillForm` runs the fill step once
per field in the given order — its result list is exactly the map of the
per-field step over the input fields and its trace the concatenation of
every field's trace, so a failure at one field never suppresses the
attempt at the next — with one entry per input field and an overall flag
that is true exactly when every entry succeeded. -/
theorem fillForm_per_field_in_order (bs : BrowserState) (page : PageModel)
    (input : FillFormInput) (cv : Nat) (h : getPage bs input.pageId = .ok page) :
    ∃ res : FillFormResult,
      fillForm bs input cv =
        (.ok res, (input.fields.map (fun f => (fillFormStep page cv f).2)).flatten) ∧
      res.results = input.fields.map (fun f => (fillFormStep page cv f).1) ∧
      res.results.length = input.fields.length ∧
      (res.success = true ↔ ∀ r ∈ res.results, r.success = true) := by
  refine ⟨{ success := (input.fields.map (fun f => (fillFormStep page cv f).1)).all
              (fun r => r.success),
            results := input.fields.map (fun f => (fillFormStep page cv f).1) },
          ?_, rfl, by simp, ?_⟩
  · unfold fillForm
    rw [h]
    simp only [List.map_map]
    rfl
  · exact List.all_eq_true

/-- Witness for C7: the three-field form on `pageForm` at version 1,
whose middle field names the fresh-but-unstamped UID `1_2`. -/
theorem fillForm_per_field_in_order_witness :
    ∃ res : FillFormResult,
      fillForm bsForm { pageId := none, fields := fieldsEx3 } 1 =
        (.ok res, (fieldsEx3.map (fun f => (fillFormStep pageForm 1 f).2)).flatten) ∧
      res.results = fieldsEx3.map (fun f => (fillFormStep pageForm 1 f).1) ∧
      res.results.length = fieldsEx3.length ∧
      (res.success = true ↔ ∀ r ∈ res.results, r.success = true) :=
  fillForm_per_field_in_order bsForm pageForm { pageId := none, fields := fieldsEx3 } 1 rfl

/-- The per-field entry `fillForm` records always carries the field's own
uid, whichever branch produced it. -/
theorem fillFormStep_uid (page : PageModel) (cv : Nat) (f : FillField) :
    (fillFormStep page cv f).1.uid = f.uid := by
  unfold fillFormStep
  rcases h : getElementByUid page f.uid cv with ⟨exc, effs⟩
  cases exc <;> rfl

/-- Claim C10: `fillForm`'s report has exactly one entry per input field
and the i-th entry's uid is the i-th field's uid — order and pairing are
preserved even across failed fields. -/
theorem fillForm_preserves_order_pairing (bs : BrowserState) (page : PageModel)
    (input : FillFormInput) (cv : Nat) (h : getPage bs input.pageId = .ok page) :
    ∃ res : FillFormResult,
      (fillForm bs input cv).1 = .ok res ∧
      ∃ hlen : res.results.length = input.fields.length,
        ∀ i : Fin input.fields.length,
          (res.results.get (Fin.cast hlen.symm i)).uid = (input.fields.get i).uid := by
  refine ⟨{ success := (input.fields.map (fun f => (fillFormStep page cv f).1)).all
              (fun r => r.success),
            results := input.fields.map (fun f => (fillFormStep page cv f).1) },
          ?_, by simp, ?_⟩
  · unfold fillForm
    rw [h]
    simp only [List.map_map]
    rfl
  · intro i
    simp [List.get_eq_getElem, List.getElem_map, fillFormStep_uid]

/-- Witness for C10: the three-field form again; the report pairs entry i
with field i. -/
theorem fillForm_preserves_order_pairing_witness :
    ∃ res : FillFormResult,
      (fillForm bsForm { pageId := none, fields := fieldsEx3 } 1).1 = .ok res ∧
      ∃ hlen : res.results.length = fieldsEx3.length,
        ∀ i : Fin fieldsEx3.length,
          (res.results.get (Fin.cast hlen.symm i)).uid = (fieldsEx3.get i).uid :=
  fillForm_preserves_order_pairing bsForm pageForm { pageId := none, fields := fieldsEx3 } 1 rfl

/-- Claim C2 (against the spec-modelled tagger): the i-th record of a
snapshot pass carries the UID `<version>_<i>` — version the snapshot
version of this pass, index counting tagged elements from 0 — and the
value stamped into the element's `data-mcp-uid` attribute equals the
record's UID. -/
theorem takeSnapshot_uid_grammar (state : Nat) (doc : List RawElem)
    (i : Fin (takeSnapshot state doc).1.elements.length) :
    ((takeSnapshot state doc).1.elements.get i).uid =
      toString (takeSnapshot state doc).1.version ++ "_" ++ toString i.val ∧
    ((takeSnapshot state doc).1.elements.get i).dataMcpUid =
      ((takeSnapshot state doc).1.elements.get i).uid := by
  constructor
  · simp [takeSnapshot, tagPass, incrementSnapshotVersion, List.get_eq_getElem,
          List.getElem_map, List.getElem_enum]
  · simp [takeSnapshot, tagPass, incrementSnapshotVersion, List.get_eq_getElem,
          List.getElem_map, List.getElem_enum]

/-- The versions of a snapshot sequence starting at counter `s` are
`s+1, s+2, ...`, one per call. -/
theorem runSnapshots_versions (docs : List (List RawElem)) :
    ∀ s : Nat, (runSnapshots s docs).map SnapshotResult.version =
      List.range' (s + 1) docs.length := by
  induction docs with
  | nil => intro s; rfl
  | cons d ds ih =>
    intro s
    simp only [runSnapshots, takeSnapshot, incrementSnapshotVersion, List.map_cons,
      List.length_cons, List.range'_succ, ih]

/-- Claim C3 (against the spec-modelled counter): every `takeSnapshot`
call advances the counter by exactly one, before tagging (the version
its pass tags with is the advanced value), and a sequence of snapshot
calls from the initial counter 0 yields strictly increasing versions all
above 0 — so no two snapshots share a version. -/
theorem takeSnapshot_versions_strictly_increasing (s : Nat) (d : List RawElem)
    (docs : List (List RawElem)) :
    (takeSnapshot s d).2 = incrementSnapshotVersion s ∧
    incrementSnapshotVersion s = s + 1 ∧
    (takeSnapshot s d).1.version = (takeSnapshot s d).2 ∧
    ((runSnapshots 0 docs).map SnapshotResult.version).Pairwise (· < ·) ∧
    (∀ v ∈ (runSnapshots 0 docs).map SnapshotResult.version, 0 < v) := by
  refine ⟨rfl, rfl, rfl, ?_, ?_⟩
  · rw [runSnapshots_versions]
    exact List.pairwise_lt_range' 1 docs.length
  · intro v hv
    rw [runSnapshots_versions] at hv
    have h := List.mem_range'_1.mp hv
    omega

/-- Witness for C3: two snapshot calls from the initial counter produce
versions 1 and 2; the second one is positive by the theorem. -/
theorem takeSnapshot_versions_strictly_increasing_witness :
    (runSnapshots 0 [[], []]).map SnapshotResult.version = [1, 2] ∧ 0 < 2 :=
  ⟨rfl, (takeSnapshot_versions_strictly_increasing 0 [] [[], []]).2.2.2.2 2 (by decide)⟩

end Camoufox
